import Mathlib

/-!
Verification development for the godsaeng-mate MCP server's tool dispatch and
protocol-adaptation layer.

The TypeScript sources are shallowly embedded as pure Lean functions:

* JavaScript strings are Lean `String`s (all literals in scope are BMP code
  points, so JS UTF-16 `length` agrees with counting characters).
* Outbound HTTP calls are represented by an explicit trace (`List Req`)
  returned beside the result; the external provider's responses are passed in
  as oracle parameters (`ApiOutcome`, `PlaceOutcome`, `CalOutcome`), so that
  "zero outbound calls" and "adapter never invoked" are provable statements.
* JavaScript built-ins that are outside the repository's code (`Date`
  arithmetic, `JSON.stringify`) are threaded through a `JsEnv` record of
  uninterpreted functions; no claim depends on their behaviour.
* A thrown-and-caught JS `Error` is an `Except.error` carrying the thrown
  message; `catch` blocks are the corresponding `match` arms.
* A JS falsy check on a string (`s ||`, `if (s)`) is `jsStrOpt` below: both
  `undefined` and the empty string count as absent.
-/

/-- JS truthiness for optional strings: `undefined` and `""` are falsy. -/
def jsStrOpt (o : Option String) : Option String :=
  match o with
  | none => none
  | some s => if s.isEmpty then none else some s

/-- JS `x || d` for optional numbers: `undefined` and `0` are falsy. -/
def jsNatOr (o : Option Nat) (d : Nat) : Nat :=
  match o with
  | none => d
  | some n => if n = 0 then d else n

/-- JS `s.slice(0, n)` / `s.substring(0, n)` for a nonnegative bound. -/
def jsSlice (s : String) (n : Nat) : String :=
  ⟨s.data.take n⟩

/-- The four search purposes (`src/types.ts`). -/
inductive Purpose
  | study
  | exercise
  | reading
  | work
deriving DecidableEq

/-- Per-purpose search strategy (`src/constants.ts`, `PURPOSE_CONFIG`). -/
structure PurposeCfg where
  defaultKeyword : String
  categoryCode : Option String
deriving DecidableEq

/-- `PURPOSE_CONFIG` of `src/constants.ts` (identical in the inline handler). -/
def purposeConfig : Purpose → PurposeCfg
  | .study => ⟨"스터디카페", some "CE7"⟩
  | .exercise => ⟨"헬스장", none⟩
  | .reading => ⟨"북카페", some "CE7"⟩
  | .work => ⟨"코워킹스페이스", none⟩

/-- `PURPOSE_LABELS` of the formatters module. -/
def purposeLabel : Purpose → String
  | .study => "공부"
  | .exercise => "운동"
  | .reading => "독서"
  | .work => "업무"

/-- The zod `purpose` enum check. -/
def parsePurpose (s : String) : Option Purpose :=
  if s = "study" then some .study
  else if s = "exercise" then some .exercise
  else if s = "reading" then some .reading
  else if s = "work" then some .work
  else none

/-- Output encodings (`ResponseFormatSchema`). -/
inductive ResponseFormat
  | markdown
  | json
deriving DecidableEq

/-- The zod `response_format` enum check. -/
def parseResponseFormat (s : String) : Option ResponseFormat :=
  if s = "markdown" then some .markdown
  else if s = "json" then some .json
  else none

/-- Calendar colors (`CalendarColorSchema`). -/
inductive CalendarColor
  | BLUE | RED | YELLOW | GREEN | PINK | ORANGE | PURPLE | GRAY
deriving DecidableEq

/-- The zod `color` enum check. -/
def parseColor (s : String) : Option CalendarColor :=
  if s = "BLUE" then some .BLUE
  else if s = "RED" then some .RED
  else if s = "YELLOW" then some .YELLOW
  else if s = "GREEN" then some .GREEN
  else if s = "PINK" then some .PINK
  else if s = "ORANGE" then some .ORANGE
  else if s = "PURPLE" then some .PURPLE
  else if s = "GRAY" then some .GRAY
  else none

def colorToString : CalendarColor → String
  | .BLUE => "BLUE"
  | .RED => "RED"
  | .YELLOW => "YELLOW"
  | .GREEN => "GREEN"
  | .PINK => "PINK"
  | .ORANGE => "ORANGE"
  | .PURPLE => "PURPLE"
  | .GRAY => "GRAY"

/-- One document of the Kakao address-search response (only the coordinate
fields matter to the embedded code). -/
structure AddressDoc where
  x : String
  y : String
deriving DecidableEq

/-- One document of the Kakao keyword-search response (`KakaoPlace`). -/
structure KakaoPlace where
  place_name : String
  address_name : String
  road_address_name : String
  phone : String
  category_name : String
  distance : String
  place_url : String
  x : String
  y : String
deriving DecidableEq

/-- Outcome of one axios GET as seen by the embedded code: either the parsed
`documents` array, or a thrown `AxiosError` carrying the HTTP status. -/
inductive ApiOutcome (α : Type)
  | ok (docs : α)
  | err (status : Nat)
deriving DecidableEq

/-- Outcome of the place-search request; a failure carries the HTTP status and
the axios error message used in the generic rethrow branch. -/
inductive PlaceOutcome
  | ok (docs : List KakaoPlace)
  | errStatus (status : Nat) (axiosMsg : String)
deriving DecidableEq

/-- Outcome of the calendar-create POST; a failure carries the HTTP status,
the axios error message, and the provider body's optional `msg` field. -/
inductive CalOutcome
  | ok (eventId : String)
  | errStatus (status : Nat) (axiosMsg : String) (dataMsg : Option String)
deriving DecidableEq

/-- One outbound HTTP request, recorded in the execution trace. -/
inductive Req
  | addressSearch (query : String)
  | keywordSearch (query : String)
  | placeSearch (query : String) (x y : String) (radius size : Nat)
      (category : Option String)
  | calendarCreate (title startAt endAt : String)
      (reminders : Option (List Nat))
deriving DecidableEq

/-- `getCoordinates` of `src/services/kakaoLocalApi.ts` (lines 19-66): try the
address lookup; on a hit take the first document's coordinates; otherwise fall
back to a keyword lookup (size 1) and take its first hit; the surrounding
`try`/`catch` turns any thrown error into `null`.  The pair is the returned
coordinates and the trace of requests actually issued (a lookup whose request
threw is still in the trace; a lookup never started is not). -/
def getCoordinates (location : String) (addrRes : ApiOutcome (List AddressDoc))
    (kwRes : ApiOutcome (List KakaoPlace)) :
    Option (String × String) × List Req :=
  match addrRes with
  | .err _ => (none, [.addressSearch location])
  | .ok (d :: _) => (some (d.x, d.y), [.addressSearch location])
  | .ok [] =>
    match kwRes with
    | .err _ => (none, [.addressSearch location, .keywordSearch location])
    | .ok (p :: _) =>
      (some (p.x, p.y), [.addressSearch location, .keywordSearch location])
    | .ok [] => (none, [.addressSearch location, .keywordSearch location])

/-- The domain errors thrown by `searchPlaces` (each rendered to the thrown
message by `renderSearchError`). -/
inductive SearchError
  | configMissing
  | notFound (location : String)
  | unauthorized
  | rateLimited
  | requestFailed (axiosMsg : String)
deriving DecidableEq

/-- The exact `Error` message thrown for each `SearchError`
(`src/services/kakaoLocalApi.ts` lines 79, 85, 121, 124, 126). -/
def renderSearchError : SearchError → String
  | .configMissing => "KAKAO_REST_API_KEY is not configured"
  | .notFound loc => "위치를 찾을 수 없습니다: " ++ loc
  | .unauthorized => "Kakao API 인증 실패. API Key를 확인해주세요."
  | .rateLimited => "API 호출 한도 초과. 잠시 후 다시 시도해주세요."
  | .requestFailed m => "장소 검색 실패: " ++ m

/-- The effective search keyword (`src/services/kakaoLocalApi.ts` line 89):
`keyword || purposeConfig.defaultKeyword`, where an empty supplied keyword is
falsy and therefore also yields the purpose default. -/
def effectiveKeyword (purpose : Purpose) (keyword : Option String) : String :=
  match jsStrOpt keyword with
  | some k => k
  | none => (purposeConfig purpose).defaultKeyword

/-- The composed query string (`src/services/kakaoLocalApi.ts` line 90). -/
def fullQuery (purpose : Purpose) (location : String)
    (keyword : Option String) : String :=
  location ++ " " ++ effectiveKeyword purpose keyword

/-- `searchPlaces` of `src/services/kakaoLocalApi.ts` (lines 71-130).
`hasKey` is whether `config.kakaoRestApiKey` is non-empty. -/
def searchPlaces (hasKey : Bool) (purpose : Purpose) (location : String)
    (keyword : Option String) (radius limit : Nat)
    (addrRes : ApiOutcome (List AddressDoc))
    (kwRes : ApiOutcome (List KakaoPlace)) (placeRes : PlaceOutcome) :
    Except SearchError (List KakaoPlace × String) × List Req :=
  if hasKey then
    match getCoordinates location addrRes kwRes with
    | (none, tr) => (.error (.notFound location), tr)
    | (some (x, y), tr) =>
      let q := fullQuery purpose location keyword
      let req :=
        Req.placeSearch q x y radius limit (purposeConfig purpose).categoryCode
      match placeRes with
      | .ok docs => (.ok (docs, q), tr ++ [req])
      | .errStatus status m =>
        if status = 401 then (.error .unauthorized, tr ++ [req])
        else if status = 429 then (.error .rateLimited, tr ++ [req])
        else (.error (.requestFailed m), tr ++ [req])
  else (.error .configMissing, [])

/-- `ProcessedPlace` of `src/types.ts` (coordinates flattened). -/
structure ProcessedPlace where
  name : String
  address : String
  roadAddress : String
  phone : String
  category : String
  distance : String
  mapUrl : String
  lat : String
  lng : String
deriving DecidableEq

/-- `processPlace` of `src/services/kakaoLocalApi.ts` (lines 135-149). -/
def processPlace (p : KakaoPlace) : ProcessedPlace where
  name := p.place_name
  address := p.address_name
  roadAddress :=
    if p.road_address_name.isEmpty then p.address_name else p.road_address_name
  phone := if p.phone.isEmpty then "정보 없음" else p.phone
  category := p.category_name
  distance := if p.distance.isEmpty then "정보 없음" else p.distance ++ "m"
  mapUrl := p.place_url
  lat := p.y
  lng := p.x

/-- `searchProductivitySpots` of `src/services/kakaoLocalApi.ts`. -/
def searchProductivitySpots (hasKey : Bool) (purpose : Purpose)
    (location : String) (keyword : Option String) (radius limit : Nat)
    (addrRes : ApiOutcome (List AddressDoc))
    (kwRes : ApiOutcome (List KakaoPlace)) (placeRes : PlaceOutcome) :
    Except SearchError (List ProcessedPlace × String × Nat) × List Req :=
  match searchPlaces hasKey purpose location keyword radius limit
      addrRes kwRes placeRes with
  | (.error e, tr) => (.error e, tr)
  | (.ok (places, q), tr) => (.ok (places.map processPlace, q, places.length), tr)

example : (getCoordinates "강남역" (.ok [⟨"127", "37"⟩]) (.ok [])).1
    = some ("127", "37") := rfl

example : fullQuery .study "홍대입구역" none = "홍대입구역 스터디카페" := rfl

/-- Uninterpreted JavaScript built-ins used by the embedded code.  `toMillis`
is `new Date(s).getTime()`, `toIso` is `new Date(ms).toISOString()`,
`localFmt`/`localFmtMillis` are the local-timezone display formatting of
`formatDateTime`/`formatTime`, and the `stringify` fields are
`JSON.stringify(-, null, 2)` at the respective record types.  No claim in this
development depends on their behaviour; they are carried so that the embedded
functions mirror the source line by line. -/
structure JsEnv where
  toMillis : String → Int
  toIso : Int → String
  localFmt : String → String
  localFmtMillis : Int → String
  stringifySearch : String → String
  stringifyBlock : String → String
  stringifyInline : String → String

/-- `roundToFiveMinutes` of the calendar service: `Math.round(minutes / 5) * 5`.
For a nonnegative integer input `Math.round(x)` is `⌊x + 1/2⌋`, and
`⌊n/5 + 1/2⌋ = ⌊(2n+5)/10⌋`; the quotient `n/5` is never exactly halfway
between two integers for integral `n`, so double rounding artifacts cannot
occur in the source's floating-point evaluation. -/
def roundToFiveMinutes (minutes : Nat) : Nat :=
  (2 * minutes + 5) / 10 * 5

/-- The trailing `.replace(/\.\d{3}Z$/, "Z")` applied to `toISOString()`
results: drops a final millisecond fraction if present. -/
def stripMillis (s : String) : String :=
  match s.data.reverse with
  | 'Z' :: a :: b :: c :: '.' :: rest =>
    if a.isDigit && b.isDigit && c.isDigit then ⟨('Z' :: rest).reverse⟩ else s
  | _ => s

/-- `formatStartTime` of the calendar service. -/
def formatStartTime (env : JsEnv) (startTime : String) : String :=
  stripMillis (env.toIso (env.toMillis startTime))

/-- `calculateEndTime` of the calendar service. -/
def calculateEndTime (env : JsEnv) (startTime : String)
    (durationMinutes : Nat) : String :=
  stripMillis (env.toIso (env.toMillis startTime + durationMinutes * 60 * 1000))

/-- The wire-format calendar event (`CalendarEvent` of `src/types.ts`),
restricted to the fields the embedded code writes. -/
structure CalendarEventW where
  title : String
  start_at : String
  end_at : String
  time_zone : String
  all_day : Bool
  color : String
  description : Option String
  locationName : Option String
  locationAddress : Option String
  reminders : Option (List Nat)
deriving DecidableEq

/-- The options record taken by `createCalendarEvent`. -/
structure CalendarOptions where
  locationName : Option String := none
  locationAddress : Option String := none
  reminderMinutes : Option Nat := none
  color : Option CalendarColor := none
  description : Option String := none

/-- The event object built by `createCalendarEvent` of the calendar service
(lines 56-89): end time from start plus duration, reminder snapped with
`roundToFiveMinutes` (default 15 via `??`, so an explicit 0 is kept), the
location attached only for a truthy name, the address only when additionally
truthy, and the `reminders` array only when the snapped value is positive. -/
def buildCalendarEvent (env : JsEnv) (title startTime : String)
    (durationMinutes : Nat) (opts : CalendarOptions) : CalendarEventW :=
  let formattedStart := formatStartTime env startTime
  let reminderMinutes := roundToFiveMinutes (opts.reminderMinutes.getD 15)
  { title := title
  , start_at := formattedStart
  , end_at := calculateEndTime env formattedStart durationMinutes
  , time_zone := "Asia/Seoul"
  , all_day := false
  , color := colorToString (opts.color.getD .BLUE)
  , description := jsStrOpt opts.description
  , locationName := jsStrOpt opts.locationName
  , locationAddress :=
      match jsStrOpt opts.locationName with
      | some _ => jsStrOpt opts.locationAddress
      | none => none
  , reminders :=
      if reminderMinutes > 0 then some [reminderMinutes] else none }

/-- `createCalendarEvent` of the calendar service (modular variant): guard the
token, build the event, POST it, and classify the failure statuses 401, 403
and 400; any other failure rethrows with the axios message.  The result is the
thrown message or the provider `event_id`, beside the request trace. -/
def createCalendarEvent (env : JsEnv) (accessToken : String)
    (title startTime : String) (durationMinutes : Nat)
    (opts : CalendarOptions) (calRes : CalOutcome) :
    Except String String × List Req :=
  if accessToken.isEmpty then
    (.error "Access Token이 필요합니다. PlayMCP를 통해 카카오 로그인을 해주세요.", [])
  else
    let event := buildCalendarEvent env title startTime durationMinutes opts
    let req := Req.calendarCreate event.title event.start_at event.end_at
        event.reminders
    match calRes with
    | .ok eid => (.ok eid, [req])
    | .errStatus status axMsg dataMsg =>
      if status = 401 then
        (.error "카카오 인증이 만료되었습니다. 다시 로그인해주세요.", [req])
      else if status = 403 then
        (.error "톡캘린더 권한이 없습니다. PlayMCP에서 talk_calendar 권한을 허용해주세요.", [req])
      else if status = 400 then
        (.error ("일정 생성 실패: " ++ ((jsStrOpt dataMsg).getD "잘못된 요청입니다.")), [req])
      else (.error ("일정 생성 실패: " ++ axMsg), [req])

/-- The text template built by `createTextTemplate` of the message service:
the composed string and the link with its fallback. -/
structure TextTemplate where
  text : String
  web_url : String
  mobile_web_url : String
deriving DecidableEq

/-- `createTextTemplate` (message service, lines 229-244): compose
`[heading]\n\n{goal}\n\n{encouragement}` and hard-cut it with
`substring(0, 200)`; the link falls back to the fixed URL. -/
def createTextTemplate (goal encouragement : String)
    (locationUrl : Option String) : TextTemplate :=
  let text := "[오늘의 갓생 목표]\n\n" ++ goal ++ "\n\n" ++ encouragement
  { text := jsSlice text 200
  , web_url := (jsStrOpt locationUrl).getD "https://playmcp.kakao.com"
  , mobile_web_url := (jsStrOpt locationUrl).getD "https://playmcp.kakao.com" }

/-- `CHARACTER_LIMIT` of the inline serverless handler. -/
def CHARACTER_LIMIT : Nat := 25000

/-- The truncation notice appended by `truncateResponse` (17 characters). -/
def truncNotice : String := "\n\n... (응답이 잘렸습니다)"

/-- `truncateResponse` of the inline serverless handler (lines 171-174): a
string at most `CHARACTER_LIMIT` long is returned unchanged; a longer one is
cut to `CHARACTER_LIMIT - 100` characters and the notice is appended. -/
def truncateResponse (content : String) : String :=
  if content.length ≤ CHARACTER_LIMIT then content
  else jsSlice content (CHARACTER_LIMIT - 100) ++ truncNotice

example : truncNotice.length = 17 := rfl

/-- Consume exactly `n` ASCII digits from the front of a character list. -/
def digitsN : Nat → List Char → Option (List Char)
  | 0, cs => some cs
  | _ + 1, [] => none
  | n + 1, c :: cs => if c.isDigit then digitsN n cs else none

/-- The optional timezone tail `(Z|[+-]\d{2}:\d{2})?$` of the `start_time`
pattern. -/
def isoTz : List Char → Bool
  | [] => true
  | ['Z'] => true
  | c :: cs =>
    (c == '+' || c == '-') &&
      (match digitsN 2 cs with
       | some (':' :: rest) => digitsN 2 rest == some []
       | _ => false)

/-- The optional seconds group `(:\d{2})?` followed by `isoTz`. -/
def isoSecTz : List Char → Bool
  | ':' :: cs =>
    (match digitsN 2 cs with
     | some rest => isoTz rest
     | none => false)
  | cs => isoTz cs

/-- The zod regex on `start_time`
(`^\d{4}-\d{2}-\d{2}T\d{2}:\d{2}(:\d{2})?(Z|[+-]\d{2}:\d{2})?$`). -/
def isIsoDateTime (s : String) : Bool :=
  match digitsN 4 s.data with
  | some ('-' :: r1) =>
    (match digitsN 2 r1 with
     | some ('-' :: r2) =>
       (match digitsN 2 r2 with
        | some ('T' :: r3) =>
          (match digitsN 2 r3 with
           | some (':' :: r4) =>
             (match digitsN 2 r4 with
              | some r5 => isoSecTz r5
              | none => false)
           | _ => false)
        | _ => false)
     | _ => false)
  | _ => false

example : isIsoDateTime "2026-01-15T19:00:00" = true := rfl
example : isIsoDateTime "2026-01-15T19:00" = true := rfl
example : isIsoDateTime "2026-01-15T19:00:00+09:00" = true := rfl
example : isIsoDateTime "2026-01-15T19:00:00Z" = true := rfl
example : isIsoDateTime "tomorrow" = false := rfl

/-- A zod check on an optional integer field: absent passes, present must lie
in the inclusive range. -/
def intInRange (lo hi : Int) (o : Option Int) : Bool :=
  match o with
  | none => true
  | some v => decide (lo ≤ v) && decide (v ≤ hi)

/-- A zod `.max(n)` check on an optional string field. -/
def strMaxLen (n : Nat) (o : Option String) : Bool :=
  match o with
  | none => true
  | some s => decide (s.length ≤ n)

/-- The raw argument map of a `godsaeng_search_spot` call, projected onto the
schema's declared keys; values carry the declared primitive type and
`extraKeys` lists any keys of the map that no declared field matches. -/
structure RawSearchArgs where
  purpose : Option String := none
  keyword : Option String := none
  location : Option String := none
  radius : Option Int := none
  limit : Option Int := none
  response_format : Option String := none
  extraKeys : List String := []

/-- `SearchSpotInput`: the typed record produced by a successful parse. -/
structure SearchSpotInput where
  purpose : Purpose
  keyword : Option String
  location : String
  radius : Nat
  limit : Nat
  response_format : ResponseFormat
deriving DecidableEq

/-- The conjunction of the range, length and closed-object checks of
`SearchSpotInputSchema` on the non-enum fields. -/
def searchChecks (raw : RawSearchArgs) (loc : String) : Bool :=
  decide (1 ≤ loc.length) && decide (loc.length ≤ 100)
    && strMaxLen 100 raw.keyword
    && intInRange 100 20000 raw.radius
    && intInRange 1 15 raw.limit
    && raw.extraKeys.isEmpty

/-- `SearchSpotInputSchema.safeParse` (`src/schemas/searchSpot.ts`): a closed
(`.strict()`) object with `purpose` and `location` required, range and length
checks as declared, and defaults `radius = 500`, `limit = 5`,
`response_format = markdown` applied only to absent fields.  The aggregated
zod error text is abstracted to a fixed message: no claim inspects it beyond
its presence. -/
def searchSafeParse (raw : RawSearchArgs) : Except String SearchSpotInput :=
  match raw.purpose, raw.location with
  | some ps, some loc =>
    match parsePurpose ps with
    | none => .error "Invalid enum value for purpose"
    | some purpose =>
      match (match raw.response_format with
             | none => some ResponseFormat.markdown
             | some f => parseResponseFormat f) with
      | none => .error "Invalid enum value for response_format"
      | some fmt =>
        if searchChecks raw loc = true then
          .ok { purpose := purpose
              , keyword := raw.keyword
              , location := loc
              , radius := (raw.radius.getD 500).toNat
              , limit := (raw.limit.getD 5).toNat
              , response_format := fmt }
        else .error "입력값이 스키마 제약을 벗어났습니다"
  | _, _ => .error "Required"

/-- The raw argument map of a `godsaeng_block_session` call, projected onto
the schema's declared keys (see `RawSearchArgs`). -/
structure RawBlockArgs where
  title : Option String := none
  location_name : Option String := none
  location_address : Option String := none
  start_time : Option String := none
  duration_minutes : Option Int := none
  reminder_minutes : Option Int := none
  color : Option String := none
  extraKeys : List String := []

/-- `BlockSessionInput`: the typed record produced by a successful parse. -/
structure BlockSessionInput where
  title : String
  location_name : Option String
  location_address : Option String
  start_time : String
  duration_minutes : Nat
  reminder_minutes : Nat
  color : CalendarColor
deriving DecidableEq

/-- The conjunction of the range, length, pattern and closed-object checks of
`BlockSessionInputSchema` on the non-enum fields. -/
def blockChecks (raw : RawBlockArgs) (title st : String) (dur : Int) : Bool :=
  decide (1 ≤ title.length) && decide (title.length ≤ 50)
    && strMaxLen 100 raw.location_name
    && strMaxLen 200 raw.location_address
    && isIsoDateTime st
    && decide (15 ≤ dur) && decide (dur ≤ 480)
    && intInRange 0 1440 raw.reminder_minutes
    && raw.extraKeys.isEmpty

/-- `BlockSessionInputSchema.safeParse` (`src/schemas/blockSession.ts`): a
closed object with `title`, `start_time`, `duration_minutes` required, the
ISO-8601 pattern on `start_time`, ranges 15-480 and 0-1440, length ceilings
50/100/200, and defaults `reminder_minutes = 15`, `color = BLUE`. -/
def blockSafeParse (raw : RawBlockArgs) : Except String BlockSessionInput :=
  match raw.title, raw.start_time, raw.duration_minutes with
  | some title, some st, some dur =>
    match (match raw.color with
           | none => some CalendarColor.BLUE
           | some c => parseColor c) with
    | none => .error "Invalid enum value for color"
    | some color =>
      if blockChecks raw title st dur = true then
        .ok { title := title
            , location_name := raw.location_name
            , location_address := raw.location_address
            , start_time := st
            , duration_minutes := dur.toNat
            , reminder_minutes := (raw.reminder_minutes.getD 15).toNat
            , color := color }
      else .error "입력값이 스키마 제약을 벗어났습니다"
  | _, _, _ => .error "Required"

example : (searchSafeParse { purpose := some "study", location := some "강남역" })
    = .ok ⟨.study, none, "강남역", 500, 5, .markdown⟩ := rfl

example : (blockSafeParse
      { title := some "공부"
      , start_time := some "2026-01-15T19:00:00"
      , duration_minutes := some 120 })
    = .ok ⟨"공부", none, none, "2026-01-15T19:00:00", 120, 15, .BLUE⟩ := rfl

example : (blockSafeParse
      { title := some "공부"
      , start_time := some "2026-01-15T19:00:00"
      , duration_minutes := some 500 })
    = .error "입력값이 스키마 제약을 벗어났습니다" := rfl

/-- `SearchSpotOutput` of `src/types.ts`. -/
structure SearchSpotOutput where
  query : String
  purpose : Purpose
  location : String
  total : Nat
  places : List ProcessedPlace
deriving DecidableEq

/-- The lines pushed for one place by the markdown branch of
`formatSearchSpotResult` (formatters module). -/
def placeSection (i : Nat) (p : ProcessedPlace) : List String :=
  [ "## " ++ toString (i + 1) ++ ". " ++ p.name
  , ""
  , "- **카테고리**: " ++ p.category
  , "- **주소**: " ++ p.roadAddress
  , "- **거리**: " ++ p.distance
  , "- **전화**: " ++ p.phone
  , "- **지도**: [카카오맵에서 보기](" ++ p.mapUrl ++ ")"
  , "" ]

/-- `formatSearchSpotResult` of the formatters module: the json branch is
`JSON.stringify(output, null, 2)` (the uninterpreted `stringifySearch` of
`JsEnv`, applied to the output's query so the dependence is visible); the
markdown branch joins the header, per-place sections and footer with
newlines. -/
def formatSearchSpotResult (env : JsEnv) (output : SearchSpotOutput)
    (format : ResponseFormat) : String :=
  match format with
  | .json => env.stringifySearch output.query
  | .markdown =>
    let header :=
      [ "# " ++ purposeLabel output.purpose ++ " 장소 검색 결과"
      , ""
      , "**검색어**: " ++ output.query
      , "**위치**: " ++ output.location
      , "**검색 결과**: " ++ toString output.total ++ "개"
      , "" ]
    if output.places.isEmpty then
      String.intercalate "\n"
        (header ++ ["검색 결과가 없습니다. 다른 키워드나 위치로 다시 검색해보세요."])
    else
      String.intercalate "\n"
        (header
          ++ (output.places.enum.map (fun ip => placeSection ip.1 ip.2)).flatten
          ++ ["---", "*장소를 선택하면 일정을 등록할 수 있습니다.*"])

/-- `BlockSessionOutput` of `src/types.ts`. -/
structure BlockSessionOutput where
  success : Bool
  eventId : Option String
  title : String
  startTime : String
  endTime : String
  location : Option String
  reminder : Nat
  message : String
deriving DecidableEq

/-- `formatBlockSessionResult` of the formatters module. -/
def formatBlockSessionResult (env : JsEnv) (output : BlockSessionOutput)
    (format : ResponseFormat) : String :=
  match format with
  | .json => env.stringifyBlock output.message
  | .markdown =>
    if output.success then
      String.intercalate "\n"
        ([ "# 일정 등록 완료"
         , ""
         , "**제목**: " ++ output.title
         , "**시작**: " ++ output.startTime
         , "**종료**: " ++ output.endTime ]
          ++ (match jsStrOpt output.location with
              | some l => ["**장소**: " ++ l]
              | none => [])
          ++ [ "**알림**: " ++ toString output.reminder ++ "분 전"
             , ""
             , "톡캘린더에 일정이 등록되었습니다!" ])
    else
      String.intercalate "\n" ["# 일정 등록 실패", "", output.message]

/-- The value an MCP tool handler returns across the protocol boundary: a
list of text content items, and the `isError` field, which is `none` when the
source object literal does not set it at all. -/
structure ToolResult where
  content : List String
  isError : Option Bool
deriving DecidableEq

/-- The handler registered by `registerSearchSpotTool`
(`src/tools/searchSpot.ts` lines 37-73): parse, search, format; the `catch`
wraps every thrown error (zod or adapter) into an envelope with
`isError: true`, while the success return sets no `isError` field. -/
def searchSpotHandler (env : JsEnv) (hasKey : Bool) (raw : RawSearchArgs)
    (addrRes : ApiOutcome (List AddressDoc))
    (kwRes : ApiOutcome (List KakaoPlace)) (placeRes : PlaceOutcome) :
    ToolResult × List Req :=
  match searchSafeParse raw with
  | .error m => (⟨["오류: " ++ m], some true⟩, [])
  | .ok input =>
    match searchProductivitySpots hasKey input.purpose input.location
        input.keyword input.radius input.limit addrRes kwRes placeRes with
    | (.error e, tr) => (⟨["오류: " ++ renderSearchError e], some true⟩, tr)
    | (.ok (places, q, total), tr) =>
      let output : SearchSpotOutput :=
        ⟨q, input.purpose, input.location, total, places⟩
      (⟨[formatSearchSpotResult env output input.response_format], none⟩, tr)

/-- The handler registered by `registerBlockSessionTool`
(`src/tools/blockSession.ts` lines 45-113): parse, then the credential guard
(before any outbound call), then the calendar adapter; failures render through
`formatBlockSessionResult` with `success: false` and carry `isError: true`;
the success return sets no `isError` field. -/
def blockSessionHandler (env : JsEnv) (accessToken : String)
    (raw : RawBlockArgs) (calRes : CalOutcome) : ToolResult × List Req :=
  match blockSafeParse raw with
  | .error m =>
    (⟨[formatBlockSessionResult env ⟨false, none, "", "", "", none, 0, m⟩ .markdown],
      some true⟩, [])
  | .ok input =>
    if accessToken.isEmpty then
      (⟨["오류: 카카오 로그인이 필요합니다. PlayMCP에서 카카오 계정으로 로그인해주세요."],
        some true⟩, [])
    else
      match createCalendarEvent env accessToken input.title input.start_time
          input.duration_minutes
          { locationName := input.location_name
          , locationAddress := input.location_address
          , reminderMinutes := some input.reminder_minutes
          , color := some input.color
          , description := some ("갓생 메이트로 등록한 일정입니다.\n\n목표: " ++ input.title) }
          calRes with
      | (.error m, tr) =>
        (⟨[formatBlockSessionResult env ⟨false, none, "", "", "", none, 0, m⟩ .markdown],
          some true⟩, tr)
      | (.ok eid, tr) =>
        let output : BlockSessionOutput :=
          ⟨true, some eid, input.title, env.localFmt input.start_time
          , env.localFmt (env.toIso (env.toMillis input.start_time
              + input.duration_minutes * 60 * 1000))
          , input.location_name, input.reminder_minutes
          , "톡캘린더에 일정이 등록되었습니다!"⟩
        (⟨[formatBlockSessionResult env output .markdown], none⟩, tr)

/-- `executeBlockSession` of the modular serverless handler (`api/` variant,
lines 237-272): the credential guard returns the auth message before any date
computation or outbound call; otherwise the calendar adapter runs and the
result is rendered with `formatBlockSessionResult`, errors as the prefixed
failure string. -/
def executeBlockSessionP0 (env : JsEnv) (accessToken : String)
    (args : BlockSessionInput) (calRes : CalOutcome) : String × List Req :=
  if accessToken.isEmpty then
    ("❌ 오류: 카카오 로그인이 필요합니다. PlayMCP에서 카카오 계정으로 로그인해주세요.", [])
  else
    match createCalendarEvent env accessToken args.title args.start_time
        args.duration_minutes
        { locationName := args.location_name
        , locationAddress := args.location_address
        , reminderMinutes := some args.reminder_minutes
        , color := some args.color
        , description := some ("갓생 메이트로 등록한 일정입니다.\n\n목표: " ++ args.title) }
        calRes with
    | (.error m, tr) => ("❌ 일정 등록 실패: " ++ m, tr)
    | (.ok eid, tr) =>
      (formatBlockSessionResult env
        ⟨true, some eid, args.title, env.localFmt args.start_time
        , env.localFmt (env.toIso (env.toMillis args.start_time
            + args.duration_minutes * 60 * 1000))
        , args.location_name, args.reminder_minutes
        , "톡캘린더에 일정이 등록되었습니다!"⟩ .markdown, tr)

/-- A `tools/call` dispatched by the modular serverless handler's
`executeTool`.  The `godsaeng_search_spot` and `godsaeng_send_commitment`
branches import service-module versions that are not part of this snapshot,
so only the calendar branch and the default branch are embedded; every branch
returns a plain string that the handler wraps identically. -/
inductive ToolCallP0
  | blockSession (raw : RawBlockArgs)
  | unknownTool (name : String)

/-- `executeTool` of the modular serverless handler (lines 306-332), on the
embedded branches: `safeParse` first, a parse failure returning the input
error string without invoking the tool body; an unknown name returning the
unknown-tool string. -/
def executeToolP0 (env : JsEnv) (accessToken : String) (call : ToolCallP0)
    (calRes : CalOutcome) : String × List Req :=
  match call with
  | .blockSession raw =>
    match blockSafeParse raw with
    | .error m => ("❌ 입력 오류: " ++ m, [])
    | .ok args => executeBlockSessionP0 env accessToken args calRes
  | .unknownTool name => ("❌ 알 수 없는 도구: " ++ name, [])

/-- The `tools/call` result object built by the serverless handler (lines
427-431): `{ content: [{ type: "text", text: toolResult }] }` — the string
from `executeTool` is wrapped in a single text item and no `isError` field is
ever written, on success or failure. -/
def toolsCallResultP0 (env : JsEnv) (accessToken : String) (call : ToolCallP0)
    (calRes : CalOutcome) : ToolResult × List Req :=
  let r := executeToolP0 env accessToken call calRes
  (⟨[r.1], none⟩, r.2)

/-- `getCoordinates` of the inline serverless handler (lines 193-223): same
two-step lookup, but guarded by the API-key check returning `null` before any
request. -/
def getCoordinatesP1 (hasKey : Bool) (location : String)
    (addrRes : ApiOutcome (List AddressDoc))
    (kwRes : ApiOutcome (List KakaoPlace)) :
    Option (String × String) × List Req :=
  if hasKey then getCoordinates location addrRes kwRes else (none, [])

/-- `searchPlaces` of the inline serverless handler (lines 225-262): missing
key and unresolved location throw; a non-ok place-search response throws the
auth message on 401 and a status-numbered message otherwise (this variant has
no 429 branch). -/
def searchPlacesP1 (hasKey : Bool) (purpose : Purpose) (location : String)
    (keyword : Option String) (radius limit : Nat)
    (addrRes : ApiOutcome (List AddressDoc))
    (kwRes : ApiOutcome (List KakaoPlace)) (placeRes : PlaceOutcome) :
    Except String (List KakaoPlace) × List Req :=
  if hasKey then
    match getCoordinatesP1 hasKey location addrRes kwRes with
    | (none, tr) => (.error ("위치를 찾을 수 없습니다: " ++ location), tr)
    | (some (x, y), tr) =>
      let q := fullQuery purpose location keyword
      let req :=
        Req.placeSearch q x y radius limit (purposeConfig purpose).categoryCode
      match placeRes with
      | .ok docs => (.ok docs, tr ++ [req])
      | .errStatus status _ =>
        if status = 401 then (.error "Kakao API 인증 실패", tr ++ [req])
        else (.error ("장소 검색 실패: " ++ toString status), tr ++ [req])
  else (.error "KAKAO_REST_API_KEY가 설정되지 않았습니다.", [])

/-- The typed view of the arguments the inline handler casts (without
validation) for `godsaeng_search_spot`. -/
structure P1SearchArgs where
  purpose : Purpose
  location : String
  keyword : Option String := none
  radius : Option Nat := none
  limit : Option Nat := none
  response_format : Option String := none

/-- The markdown block the inline handler builds for one place (lines
312-319); a falsy phone omits its line, and a missing road address falls back
to the lot address. -/
def placeMdP1 (i : Nat) (p : KakaoPlace) : String :=
  "## " ++ toString (i + 1) ++ ". " ++ p.place_name ++ "\n\n"
    ++ "- **카테고리**: " ++ p.category_name ++ "\n"
    ++ "- **주소**: "
    ++ (if p.road_address_name.isEmpty then p.address_name else p.road_address_name)
    ++ "\n"
    ++ "- **거리**: " ++ p.distance ++ "m\n"
    ++ (if p.phone.isEmpty then "" else "- **전화**: " ++ p.phone ++ "\n")
    ++ "- **지도**: [카카오맵에서 보기](" ++ p.place_url ++ ")\n\n"

/-- The markdown header the inline handler builds (lines 302-305). -/
def searchMdHeaderP1 (purpose : Purpose) (location : String) (count : Nat) :
    String :=
  "# " ++ purposeLabel purpose ++ " 장소 검색 결과\n\n"
    ++ "**위치**: " ++ location ++ "\n"
    ++ "**검색 결과**: " ++ toString count ++ "개\n\n"

/-- The full markdown render of a non-empty inline search result. -/
def searchMdP1 (purpose : Purpose) (location : String)
    (places : List KakaoPlace) : String :=
  searchMdHeaderP1 purpose location places.length
    ++ String.join (places.enum.map (fun ip => placeMdP1 ip.1 ip.2))

/-- `executeSearchSpot` of the inline serverless handler (lines 266-325):
defaults via `||`, the json branch returns `JSON.stringify` output directly
(the uninterpreted `stringifyInline`, applied to the location so the
dependence is visible), the empty-result markdown returns early, and only the
non-empty markdown render passes through `truncateResponse`; a thrown error
becomes the prefixed failure string. -/
def executeSearchSpotP1 (env : JsEnv) (hasKey : Bool) (args : P1SearchArgs)
    (addrRes : ApiOutcome (List AddressDoc))
    (kwRes : ApiOutcome (List KakaoPlace)) (placeRes : PlaceOutcome) :
    String × List Req :=
  let format := (jsStrOpt args.response_format).getD "markdown"
  match searchPlacesP1 hasKey args.purpose args.location args.keyword
      (jsNatOr args.radius 500) (jsNatOr args.limit 5)
      addrRes kwRes placeRes with
  | (.error m, tr) => ("❌ 장소 검색 실패: " ++ m, tr)
  | (.ok places, tr) =>
    if format = "json" then (env.stringifyInline args.location, tr)
    else if places.isEmpty then
      (searchMdHeaderP1 args.purpose args.location places.length
        ++ "검색 결과가 없습니다. 다른 키워드나 위치로 다시 검색해보세요.\n", tr)
    else (truncateResponse (searchMdP1 args.purpose args.location places), tr)

/-- The typed view of the arguments the inline handler casts (without
validation) for `godsaeng_block_session`. -/
structure P1BlockArgs where
  title : String
  start_time : String
  duration_minutes : Nat
  location_name : Option String := none
  location_address : Option String := none
  reminder_minutes : Option Nat := none
  color : Option String := none

/-- The event object built inline by `executeBlockSession` of the inline
serverless handler (lines 343-364).  Note the reminder default is applied
with `||`, so an explicit 0 becomes 15 before snapping. -/
def buildEventP1 (env : JsEnv) (args : P1BlockArgs) : CalendarEventW :=
  let startMs := env.toMillis args.start_time
  let reminderMinutes := roundToFiveMinutes (jsNatOr args.reminder_minutes 15)
  { title := args.title
  , start_at := stripMillis (env.toIso startMs)
  , end_at := stripMillis (env.toIso (startMs + args.duration_minutes * 60 * 1000))
  , time_zone := "Asia/Seoul"
  , all_day := false
  , color := (jsStrOpt args.color).getD "BLUE"
  , description := some ("갓생 메이트로 등록한 일정입니다.\n\n목표: " ++ args.title)
  , locationName := jsStrOpt args.location_name
  , locationAddress :=
      match jsStrOpt args.location_name with
      | some _ => jsStrOpt args.location_address
      | none => none
  , reminders :=
      if reminderMinutes > 0 then some [reminderMinutes] else none }

/-- The success markdown of the inline `executeBlockSession` (lines 388-394). -/
def blockSuccessMdP1 (env : JsEnv) (args : P1BlockArgs) : String :=
  let startMs := env.toMillis args.start_time
  let reminderMinutes := roundToFiveMinutes (jsNatOr args.reminder_minutes 15)
  "# 일정 등록 완료\n\n"
    ++ "**제목**: " ++ args.title ++ "\n"
    ++ "**시작**: " ++ env.localFmtMillis startMs ++ "\n"
    ++ "**종료**: " ++ env.localFmtMillis (startMs + args.duration_minutes * 60 * 1000) ++ "\n"
    ++ (match jsStrOpt args.location_name with
        | some l => "**장소**: " ++ l ++ "\n"
        | none => "")
    ++ "**알림**: " ++ toString reminderMinutes ++ "분 전\n\n"
    ++ "톡캘린더에 일정이 등록되었습니다!\n"

/-- `executeBlockSession` of the inline serverless handler (lines 327-400):
credential guard first (before any computation or call), then the inline
event build and POST with statuses 401/403 thrown specially. -/
def executeBlockSessionP1 (env : JsEnv) (accessToken : String)
    (args : P1BlockArgs) (calRes : CalOutcome) : String × List Req :=
  if accessToken.isEmpty then
    ("❌ 카카오 로그인이 필요합니다. PlayMCP에서 카카오 계정으로 로그인해주세요.", [])
  else
    let event := buildEventP1 env args
    let req := Req.calendarCreate event.title event.start_at event.end_at
        event.reminders
    match calRes with
    | .ok _ => (blockSuccessMdP1 env args, [req])
    | .errStatus status _ _ =>
      if status = 401 then ("❌ 일정 등록 실패: 카카오 인증이 만료되었습니다.", [req])
      else if status = 403 then ("❌ 일정 등록 실패: 톡캘린더 권한이 필요합니다.", [req])
      else ("❌ 일정 등록 실패: 일정 생성 실패: " ++ toString status, [req])

/-- A concrete interpretation of the JS built-ins, used to evaluate the
embedded functions on concrete inputs. -/
def env0 : JsEnv where
  toMillis := fun _ => 0
  toIso := fun _ => "1970-01-01T00:00:00.000Z"
  localFmt := fun s => s
  localFmtMillis := fun _ => "1970-01-01 00:00"
  stringifySearch := fun s => s
  stringifyBlock := fun s => s
  stringifyInline := fun s => s

/-- Length of a string made by `String.append` splits. -/
theorem strLen_append (s t : String) : (s ++ t).length = s.length + t.length :=
  String.length_append s t

/-- Length of a JS slice is the minimum of the bound and the length. -/
theorem strLen_jsSlice (s : String) (n : Nat) :
    (jsSlice s n).length = min n s.length := by
  cases s with
  | mk data => simp [jsSlice, String.length, List.length_take]

/-- A slice bound at least the length returns the string unchanged. -/
theorem jsSlice_of_le (s : String) (n : Nat) (h : s.length ≤ n) :
    jsSlice s n = s := by
  cases s with
  | mk data =>
    have : List.take n data = data := List.take_of_length_le h
    simp [jsSlice, this]

/-- Below or at the ceiling, `truncateResponse` is the identity. -/
theorem truncateResponse_of_le (s : String) (h : s.length ≤ 25000) :
    truncateResponse s = s := by
  simp [truncateResponse, CHARACTER_LIMIT, h]

/-- Above the ceiling, `truncateResponse` cuts to 24900 characters and
appends the 17-character notice, totalling 24917. -/
theorem truncateResponse_of_long (s : String) (h : 25000 < s.length) :
    truncateResponse s = jsSlice s 24900 ++ truncNotice
      ∧ (truncateResponse s).length = 24917 := by
  have hnotice : truncNotice.length = 17 := rfl
  have hne : ¬ s.length ≤ 25000 := by omega
  constructor
  · simp [truncateResponse, CHARACTER_LIMIT, hne]
  · rw [truncateResponse]
    simp only [CHARACTER_LIMIT, hne, if_false]
    rw [strLen_append, strLen_jsSlice, hnotice]
    omega

/-- The distance between two naturals. -/
def natDist (a b : Nat) : Nat := (a - b) + (b - a)

/-- Concrete inline block-session arguments with an explicit reminder of 0. -/
def argsB1 : P1BlockArgs :=
  { title := "공부"
  , start_time := "2026-01-15T19:00:00"
  , duration_minutes := 120
  , reminder_minutes := some 0 }

/-- C4 counterexample: the claim says a reminder input of 0 always omits the
`reminders` field, but the inline serverless dispatcher applies the default
with `||` before snapping, so `reminder_minutes = 0` submits `reminders:
[15]` in its outbound calendar-create request. -/
theorem C4_counterexample :
    (buildEventP1 env0 argsB1).reminders = some [15]
      ∧ (executeBlockSessionP1 env0 "token" argsB1 (.ok "evt1")).2
          = [Req.calendarCreate "공부" "1970-01-01T00:00:00Z"
              "1970-01-01T00:00:00Z" (some [15])]
      ∧ some [15] ≠ (none : Option (List Nat)) := by
  refine ⟨rfl, rfl, by simp⟩

/-- C4 (amended): `roundToFiveMinutes` snaps to the nearest multiple of 5
(input 7 gives 5) and snaps to 0 exactly for inputs 0, 1 and 2; the calendar
adapter (`createCalendarEvent`) submits the snapped value and omits the
`reminders` field whenever the snapped value is 0; the inline serverless
variant, however, turns an explicit input 0 into the default 15 before
snapping, so only there 0 does not omit the reminder. -/
theorem C4_amended_reminder :
    (∀ n : Nat, roundToFiveMinutes n % 5 = 0)
      ∧ (∀ n : Nat, natDist n (roundToFiveMinutes n) ≤ 2)
      ∧ (∀ n m : Nat, m % 5 = 0 →
          natDist n (roundToFiveMinutes n) ≤ natDist n m)
      ∧ (∀ n : Nat, roundToFiveMinutes n = 0 ↔ n ≤ 2)
      ∧ roundToFiveMinutes 7 = 5
      ∧ (∀ (env : JsEnv) (title st : String) (dur : Nat)
          (opts : CalendarOptions) (r : Nat), opts.reminderMinutes = some r →
          (buildCalendarEvent env title st dur opts).reminders
            = if roundToFiveMinutes r = 0 then none
              else some [roundToFiveMinutes r])
      ∧ (∀ (env : JsEnv) (args : P1BlockArgs),
          args.reminder_minutes = some 0 →
          (buildEventP1 env args).reminders = some [15]) := by
  refine ⟨?_, ?_, ?_, ?_, rfl, ?_, ?_⟩
  · intro n
    simp only [roundToFiveMinutes]
    omega
  · intro n
    simp only [roundToFiveMinutes, natDist]
    omega
  · intro n m hm
    simp only [roundToFiveMinutes, natDist]
    omega
  · intro n
    simp only [roundToFiveMinutes]
    omega
  · intro env title st dur opts r h
    simp only [buildCalendarEvent, h, Option.getD_some]
    split
    · next hpos => simp [Nat.pos_iff_ne_zero.mp hpos]
    · next hpos => simp [Nat.eq_zero_of_not_pos hpos]
  · intro env args h
    simp [buildEventP1, h, jsNatOr, roundToFiveMinutes]

/-- C4 witness: the amended theorem evaluated at concrete inputs — 7 snaps to
5 (nearest multiple of 5), the adapter omits the reminder for input 2 and
submits `[5]` for input 7. -/
theorem C4_amended_reminder_witness :
    natDist 13 (roundToFiveMinutes 13) ≤ natDist 13 10
      ∧ (buildCalendarEvent env0 "t" "2026-01-15T19:00:00" 60
          { reminderMinutes := some 7 }).reminders = some [5]
      ∧ (buildCalendarEvent env0 "t" "2026-01-15T19:00:00" 60
          { reminderMinutes := some 2 }).reminders = none
      ∧ (buildEventP1 env0 argsB1).reminders = some [15] := by
  refine ⟨C4_amended_reminder.2.2.1 13 10 (by decide), ?_, ?_,
    C4_amended_reminder.2.2.2.2.2.2 env0 argsB1 rfl⟩
  · have h := C4_amended_reminder.2.2.2.2.2.1 env0 "t" "2026-01-15T19:00:00" 60
      { reminderMinutes := some 7 } 7 rfl
    simpa using h
  · have h := C4_amended_reminder.2.2.2.2.2.1 env0 "t" "2026-01-15T19:00:00" 60
      { reminderMinutes := some 2 } 2 rfl
    simpa using h

/-- C8: for the text message template, the `text` field is the composed
string `[heading]\n\n{goal}\n\n{encouragement}` hard-cut (not word-aware) at
200 characters: it equals the composed string when that string is at most 200
characters long, and is exactly 200 characters long otherwise. -/
theorem C8_text_template (goal enc : String) (url : Option String) :
    (createTextTemplate goal enc url).text
        = jsSlice ("[오늘의 갓생 목표]\n\n" ++ goal ++ "\n\n" ++ enc) 200
      ∧ (("[오늘의 갓생 목표]\n\n" ++ goal ++ "\n\n" ++ enc).length ≤ 200 →
          (createTextTemplate goal enc url).text
            = "[오늘의 갓생 목표]\n\n" ++ goal ++ "\n\n" ++ enc)
      ∧ (200 < ("[오늘의 갓생 목표]\n\n" ++ goal ++ "\n\n" ++ enc).length →
          (createTextTemplate goal enc url).text.length = 200) := by
  refine ⟨rfl, ?_, ?_⟩
  · intro h
    show jsSlice _ 200 = _
    exact jsSlice_of_le _ _ h
  · intro h
    show (jsSlice _ 200).length = 200
    rw [strLen_jsSlice]
    omega

/-- A 200-character goal for exercising the truncating branch. -/
def goalLong : String := ⟨List.replicate 200 'g'⟩

set_option maxRecDepth 4096 in
/-- C8 witness: with a 200-character goal the composed string has 215
characters and the rendered text field is exactly 200 characters; with a
short goal the composed string passes through unchanged. -/
theorem C8_text_template_witness :
    (createTextTemplate goalLong "" none).text.length = 200
      ∧ (createTextTemplate "공부" "파이팅" none).text
          = "[오늘의 갓생 목표]\n\n공부\n\n파이팅" := by
  constructor
  · exact (C8_text_template goalLong "" none).2.2 (by decide)
  · exact (C8_text_template "공부" "파이팅" none).2.1 (by decide)

/-- A 26000-character place name returned by the (unvalidated) provider. -/
def bigName : String := ⟨List.replicate 26000 'a'⟩

theorem bigName_length : bigName.length = 26000 :=
  List.length_replicate 26000 'a'

/-- A provider place record whose name makes the markdown render overflow the
character ceiling. -/
def bigPlace : KakaoPlace :=
  ⟨bigName, "주소", "도로명주소", "02-123-4567", "카페 > 커피전문점", "300",
    "http://place.map.kakao.com/1", "127", "37"⟩

/-- A successful address lookup for the fixtures. -/
def addr0 : ApiOutcome (List AddressDoc) := .ok [⟨"127", "37"⟩]

/-- Concrete inline search arguments (markdown default). -/
def argsS1 : P1SearchArgs := { purpose := .study, location := "강남역" }

/-- Minimal valid raw search arguments. -/
def rawS3 : RawSearchArgs := { purpose := some "study", location := some "강남역" }

/-- The overflowing markdown render really exceeds the 25,000 ceiling. -/
theorem bigMd_long : 25000 < (searchMdP1 .study "강남역" [bigPlace]).length := by
  simp only [searchMdP1, searchMdHeaderP1, placeMdP1, bigPlace, String.join,
    List.enum, List.enumFrom, List.map, List.foldl, strLen_append, bigName_length]
  omega

/-- C2 counterexample: the claim says an overflowing markdown search render is
cut to exactly 25,000 minus the notice length so that the total is exactly
25,000 characters; in fact the code cuts to 25,000 − 100 = 24,900 characters
and appends the 17-character notice, so this overflowing render comes back
with 24,917 characters, not 25,000. -/
theorem C2_counterexample :
    25000 < (searchMdP1 .study "강남역" [bigPlace]).length
      ∧ (executeSearchSpotP1 env0 true argsS1 addr0 (.ok []) (.ok [bigPlace])).1
          = truncateResponse (searchMdP1 .study "강남역" [bigPlace])
      ∧ (truncateResponse (searchMdP1 .study "강남역" [bigPlace])).length = 24917
      ∧ (24917 : Nat) ≠ 25000 := by
  refine ⟨bigMd_long, ?_, (truncateResponse_of_long _ bigMd_long).2, by decide⟩
  simp [executeSearchSpotP1, searchPlacesP1, getCoordinatesP1, getCoordinates,
    argsS1, addr0, jsStrOpt, jsNatOr]

/-- The accumulator bounds the length of `String.intercalate.go`. -/
theorem intercalate_go_ge_acc (as : List String) (acc sep : String) :
    acc.length ≤ (String.intercalate.go acc sep as).length := by
  induction as generalizing acc with
  | nil => simp [String.intercalate.go]
  | cons a as ih =>
    calc acc.length ≤ (acc ++ sep ++ a).length := by
          rw [strLen_append, strLen_append]
          omega
      _ ≤ (String.intercalate.go (acc ++ sep ++ a) sep as).length := ih _
      _ = (String.intercalate.go acc sep (a :: as)).length := by
          simp [String.intercalate.go]

/-- Any member of the list bounds the length of `String.intercalate.go`. -/
theorem intercalate_go_ge_mem (as : List String) (sep x : String) :
    ∀ acc, x ∈ as → x.length ≤ (String.intercalate.go acc sep as).length := by
  induction as with
  | nil =>
    intro acc h
    cases h
  | cons a as ih =>
    intro acc h
    rcases List.mem_cons.mp h with rfl | hx
    · calc x.length ≤ (acc ++ sep ++ x).length := by
            rw [strLen_append, strLen_append]
            omega
        _ ≤ (String.intercalate.go (acc ++ sep ++ x) sep as).length :=
            intercalate_go_ge_acc as _ sep
        _ = (String.intercalate.go acc sep (x :: as)).length := by
            simp [String.intercalate.go]
    · calc x.length ≤ (String.intercalate.go (acc ++ sep ++ a) sep as).length :=
            ih _ hx
        _ = (String.intercalate.go acc sep (a :: as)).length := by
            simp [String.intercalate.go]

/-- A joined line list is at least as long as any of its lines. -/
theorem intercalate_mem_le (l : List String) (sep x : String) (h : x ∈ l) :
    x.length ≤ (String.intercalate sep l).length := by
  cases l with
  | nil => cases h
  | cons a as =>
    rcases List.mem_cons.mp h with rfl | hx
    · exact intercalate_go_ge_acc as x sep
    · exact intercalate_go_ge_mem as sep x a hx

/-- The `SearchSpotOutput` the SDK pipeline builds for the overflowing
provider record. -/
def outputBig : SearchSpotOutput :=
  ⟨"강남역 스터디카페", .study, "강남역", 1, [processPlace bigPlace]⟩

/-- The SDK markdown render of `outputBig` exceeds the 25,000 ceiling. -/
theorem sdkMd_long :
    25000 < (formatSearchSpotResult env0 outputBig .markdown).length := by
  have hform : formatSearchSpotResult env0 outputBig .markdown
      = String.intercalate "\n"
          (["# 공부 장소 검색 결과", "", "**검색어**: 강남역 스터디카페",
            "**위치**: 강남역", "**검색 결과**: 1개", ""]
            ++ placeSection 0 (processPlace bigPlace)
            ++ ["---", "*장소를 선택하면 일정을 등록할 수 있습니다.*"]) := rfl
  have hmem : ("## " ++ toString (0 + 1) ++ ". " ++ (processPlace bigPlace).name)
      ∈ (["# 공부 장소 검색 결과", "", "**검색어**: 강남역 스터디카페",
          "**위치**: 강남역", "**검색 결과**: 1개", ""]
          ++ placeSection 0 (processPlace bigPlace)
          ++ ["---", "*장소를 선택하면 일정을 등록할 수 있습니다.*"]) := by
    simp [placeSection]
  have hx : 26000 ≤ ("## " ++ toString (0 + 1) ++ ". "
      ++ (processPlace bigPlace).name).length := by
    rw [strLen_append, strLen_append, strLen_append,
      show (processPlace bigPlace).name = bigName from rfl, bigName_length]
    omega
  have hb := intercalate_mem_le _ "\n" _ hmem
  rw [hform]
  omega

/-- C2 (amended): only the inline serverless dispatcher truncates — there a
render of at most 25,000 characters is returned unchanged, an overflowing
markdown render is cut to 25,000 − 100 = 24,900 characters with the
17-character notice appended, totalling 24,917 (below, not equal to, the
ceiling), and a JSON render is returned exactly as the serializer produced
it; the SDK pipeline (`formatSearchSpotResult` returned verbatim by the
registered search tool) never truncates at all — its success envelope always
carries the formatter output itself, even when, as in the concrete instance
below, the markdown render exceeds 25,000 characters. -/
theorem C2_amended_truncation :
    (∀ s : String, s.length ≤ 25000 → truncateResponse s = s)
      ∧ (∀ s : String, 25000 < s.length →
          truncateResponse s = jsSlice s 24900 ++ truncNotice
            ∧ (truncateResponse s).length = 24917)
      ∧ (∀ (env : JsEnv) (hasKey : Bool) (args : P1SearchArgs)
          (a : ApiOutcome (List AddressDoc)) (k : ApiOutcome (List KakaoPlace))
          (p : PlaceOutcome) (places : List KakaoPlace) (tr : List Req),
          searchPlacesP1 hasKey args.purpose args.location args.keyword
              (jsNatOr args.radius 500) (jsNatOr args.limit 5) a k p
            = (.ok places, tr) →
          (args.response_format = some "json" →
            executeSearchSpotP1 env hasKey args a k p
              = (env.stringifyInline args.location, tr))
            ∧ (args.response_format = none → places ≠ [] →
              executeSearchSpotP1 env hasKey args a k p
                = (truncateResponse (searchMdP1 args.purpose args.location places),
                    tr)))
      ∧ (∀ (env : JsEnv) (hasKey : Bool) (raw : RawSearchArgs)
          (a : ApiOutcome (List AddressDoc)) (k : ApiOutcome (List KakaoPlace))
          (p : PlaceOutcome) (v : SearchSpotInput)
          (places : List ProcessedPlace) (q : String) (total : Nat)
          (tr : List Req),
          searchSafeParse raw = .ok v →
          searchProductivitySpots hasKey v.purpose v.location v.keyword
              v.radius v.limit a k p = (.ok (places, q, total), tr) →
          (searchSpotHandler env hasKey raw a k p).1.content
            = [formatSearchSpotResult env ⟨q, v.purpose, v.location, total, places⟩
                v.response_format])
      ∧ 25000 < (formatSearchSpotResult env0 outputBig .markdown).length
      ∧ (searchSpotHandler env0 true rawS3 addr0 (.ok []) (.ok [bigPlace])).1.content
          = [formatSearchSpotResult env0 outputBig .markdown] := by
  have hjson : jsStrOpt (some "json") = some "json" := rfl
  have hmd : ("markdown" : String) ≠ "json" := by decide
  have hsdk : ∀ (env : JsEnv) (hasKey : Bool) (raw : RawSearchArgs)
      (a : ApiOutcome (List AddressDoc)) (k : ApiOutcome (List KakaoPlace))
      (p : PlaceOutcome) (v : SearchSpotInput) (places : List ProcessedPlace)
      (q : String) (total : Nat) (tr : List Req),
      searchSafeParse raw = .ok v →
      searchProductivitySpots hasKey v.purpose v.location v.keyword
          v.radius v.limit a k p = (.ok (places, q, total), tr) →
      (searchSpotHandler env hasKey raw a k p).1.content
        = [formatSearchSpotResult env ⟨q, v.purpose, v.location, total, places⟩
            v.response_format] := by
    intro env hasKey raw a k p v places q total tr hp hq
    simp [searchSpotHandler, hp, hq]
  refine ⟨truncateResponse_of_le, fun s h => truncateResponse_of_long s h, ?_,
    hsdk, sdkMd_long, ?_⟩
  · intro env hasKey args a k p places tr h
    constructor
    · intro hj
      simp [executeSearchSpotP1, h, hj, hjson]
    · intro hn hne
      simp [executeSearchSpotP1, h, hn, jsStrOpt, hmd, hne, searchMdP1]
  · exact hsdk env0 true rawS3 addr0 (.ok []) (.ok [bigPlace])
      ⟨.study, none, "강남역", 500, 5, .markdown⟩ [processPlace bigPlace]
      "강남역 스터디카페" 1
      [Req.addressSearch "강남역",
        Req.placeSearch "강남역 스터디카페" "127" "37" 500 5 (some "CE7")] rfl rfl

/-- Concrete inline search arguments asking for the JSON format. -/
def argsS2json : P1SearchArgs :=
  { purpose := .study, location := "강남역", response_format := some "json" }

/-- C2 witness: a short render passes through unchanged; the overflowing
inline markdown render comes back with 24,917 characters; a JSON-format call
returns the serializer output untouched; and the SDK pipeline returns the
formatter output verbatim at a concrete successful parse. -/
theorem C2_amended_truncation_witness :
    truncateResponse "짧은 응답" = "짧은 응답"
      ∧ (truncateResponse (searchMdP1 .study "강남역" [bigPlace])).length = 24917
      ∧ executeSearchSpotP1 env0 true argsS2json addr0 (.ok []) (.ok [bigPlace])
          = ("강남역", [Req.addressSearch "강남역",
              Req.placeSearch "강남역 스터디카페" "127" "37" 500 5 (some "CE7")])
      ∧ (searchSpotHandler env0 true rawS3 addr0 (.ok []) (.ok [bigPlace])).1.content
          = [formatSearchSpotResult env0
              ⟨"강남역 스터디카페", Purpose.study, "강남역", 1, [processPlace bigPlace]⟩
              ResponseFormat.markdown] := by
  refine ⟨C2_amended_truncation.1 _ (by decide),
    (C2_amended_truncation.2.1 _ bigMd_long).2, ?_, ?_⟩
  · exact (C2_amended_truncation.2.2.1 env0 true argsS2json addr0 (.ok [])
      (.ok [bigPlace]) [bigPlace]
      [Req.addressSearch "강남역",
        Req.placeSearch "강남역 스터디카페" "127" "37" 500 5 (some "CE7")] rfl).1 rfl
  · exact C2_amended_truncation.2.2.2.1 env0 true rawS3 addr0 (.ok [])
      (.ok [bigPlace]) ⟨.study, none, "강남역", 500, 5, .markdown⟩
      [processPlace bigPlace] "강남역 스터디카페" 1
      [Req.addressSearch "강남역",
        Req.placeSearch "강남역 스터디카페" "127" "37" 500 5 (some "CE7")] rfl rfl

/-- Raw search arguments carrying an explicitly supplied empty keyword, which
the schema accepts. -/
def rawS2 : RawSearchArgs :=
  { purpose := some "study", location := some "홍대입구역", keyword := some "" }

/-- C3 counterexample: the claim says a supplied keyword always yields the
query `{location} {keyword}`; but the schema accepts an empty keyword
(`.max(100)` only), and the `keyword || default` composition treats it as
falsy, so the validated input with `keyword = ""` produces
`홍대입구역 스터디카페`, not `홍대입구역 ` (location, space, empty keyword). -/
theorem C3_counterexample :
    searchSafeParse rawS2 = .ok ⟨.study, some "", "홍대입구역", 500, 5, .markdown⟩
      ∧ fullQuery .study "홍대입구역" (some "") = "홍대입구역 스터디카페"
      ∧ ("홍대입구역 스터디카페" : String) ≠ "홍대입구역 " ++ ""
      ∧ (searchPlaces true .study "홍대입구역" (some "") 500 5
          (.ok [⟨"127", "37"⟩]) (.ok []) (.ok [])).2
          = [.addressSearch "홍대입구역",
             .placeSearch "홍대입구역 스터디카페" "127" "37" 500 5 (some "CE7")] := by
  exact ⟨rfl, rfl, by decide, rfl⟩

/-- C3 (amended): with no keyword, or with an empty (falsy) keyword, the
query sent to the place-search provider is the location, a space, and the
purpose's default term; with a nonempty keyword it is `{location} {keyword}`;
and the request carries a category-group filter exactly for the purposes
`study` and `reading`. -/
theorem C3_amended_query :
    (∀ (p : Purpose) (loc : String),
        fullQuery p loc none = loc ++ " " ++ (purposeConfig p).defaultKeyword)
      ∧ (∀ (p : Purpose) (loc : String),
          fullQuery p loc (some "") = loc ++ " " ++ (purposeConfig p).defaultKeyword)
      ∧ (∀ (p : Purpose) (loc k : String), k ≠ "" →
          fullQuery p loc (some k) = loc ++ " " ++ k)
      ∧ fullQuery .study "홍대입구역" none = "홍대입구역 " ++ "스터디카페"
      ∧ (∀ p : Purpose,
          (purposeConfig p).categoryCode ≠ none ↔ (p = .study ∨ p = .reading))
      ∧ (∀ (p : Purpose) (loc : String) (kw : Option String)
          (radius limit : Nat) (d : AddressDoc) (rest : List AddressDoc)
          (kwRes : ApiOutcome (List KakaoPlace)) (docs : List KakaoPlace),
          (searchPlaces true p loc kw radius limit (.ok (d :: rest)) kwRes
            (.ok docs)).2
            = [.addressSearch loc,
               .placeSearch (fullQuery p loc kw) d.x d.y radius limit
                 (purposeConfig p).categoryCode]) := by
  refine ⟨?_, ?_, ?_, rfl, ?_, ?_⟩
  · intro p loc
    simp [fullQuery, effectiveKeyword, jsStrOpt]
  · intro p loc
    have hemp : ("" : String).isEmpty = true := rfl
    simp [fullQuery, effectiveKeyword, jsStrOpt, hemp]
  · intro p loc k h
    have hk : k.isEmpty = false := by
      rcases hke : k.isEmpty
      · rfl
      · exact absurd ((String.isEmpty_iff k).mp hke) h
    simp [fullQuery, effectiveKeyword, jsStrOpt, hk]
  · intro p
    cases p <;> simp [purposeConfig]
  · intro p loc kw radius limit d rest kwRes docs
    simp [searchPlaces, getCoordinates]

/-- C3 witness: the amended theorem at concrete inputs — no keyword gives
`홍대입구역 스터디카페`; a nonempty keyword replaces the default term; the
reading purpose carries a category filter and the exercise purpose does not. -/
theorem C3_amended_query_witness :
    fullQuery .study "홍대입구역" (some "24시간") = "홍대입구역 " ++ "24시간"
      ∧ fullQuery .study "홍대입구역" none = "홍대입구역 " ++ "스터디카페"
      ∧ ((purposeConfig .reading).categoryCode ≠ none ↔
          (Purpose.reading = .study ∨ Purpose.reading = .reading)) := by
  exact ⟨C3_amended_query.2.2.1 .study "홍대입구역" "24시간" (by decide),
    C3_amended_query.2.2.2.1, C3_amended_query.2.2.2.2.1 .reading⟩

/-- C9: coordinate resolution is a two-step lookup — the address lookup is
issued first; the keyword lookup is issued exactly when the address lookup
returned zero documents; the first hit's coordinates are taken; and, when
both lookups complete, the search fails with the location-not-found error
(whose message names the location) exactly when both return zero documents. -/
theorem C9_two_step_lookup (loc : String) (da : List AddressDoc)
    (dk : List KakaoPlace) (p : Purpose) (kw : Option String)
    (radius limit : Nat) (placeRes : PlaceOutcome) :
    ((getCoordinates loc (.ok da) (.ok dk)).2.head? = some (.addressSearch loc))
      ∧ (Req.keywordSearch loc ∈ (getCoordinates loc (.ok da) (.ok dk)).2 ↔ da = [])
      ∧ (∀ d rest, da = d :: rest →
          (getCoordinates loc (.ok da) (.ok dk)).1 = some (d.x, d.y))
      ∧ (∀ q rest, da = [] → dk = q :: rest →
          (getCoordinates loc (.ok da) (.ok dk)).1 = some (q.x, q.y))
      ∧ ((searchPlaces true p loc kw radius limit (.ok da) (.ok dk) placeRes).1
          = .error (.notFound loc) ↔ (da = [] ∧ dk = []))
      ∧ renderSearchError (.notFound loc) = "위치를 찾을 수 없습니다: " ++ loc := by
  refine ⟨?_, ?_, ?_, ?_, ?_, rfl⟩
  · cases da <;> cases dk <;> rfl
  · cases da <;> cases dk <;> simp [getCoordinates]
  · intro d rest h
    subst h
    rfl
  · intro q rest h h2
    subst h
    subst h2
    rfl
  · cases da with
    | cons d rest =>
      cases placeRes with
      | ok docs => simp [searchPlaces, getCoordinates]
      | errStatus s m =>
        rcases eq_or_ne s 401 with h1 | h1
        · subst h1
          simp [searchPlaces, getCoordinates]
        · rcases eq_or_ne s 429 with h2 | h2
          · subst h2
            simp [searchPlaces, getCoordinates]
          · simp [searchPlaces, getCoordinates, h1, h2]
    | nil =>
      cases dk with
      | cons q rest =>
        cases placeRes with
        | ok docs => simp [searchPlaces, getCoordinates]
        | errStatus s m =>
          rcases eq_or_ne s 401 with h1 | h1
          · subst h1
            simp [searchPlaces, getCoordinates]
          · rcases eq_or_ne s 429 with h2 | h2
            · subst h2
              simp [searchPlaces, getCoordinates]
            · simp [searchPlaces, getCoordinates, h1, h2]
      | nil => simp [searchPlaces, getCoordinates]

/-- C9 witness: the theorem evaluated at concrete lookups — an address hit is
taken directly, an address miss falls back to the keyword hit, and two empty
lookups produce the location-not-found error. -/
theorem C9_two_step_lookup_witness :
    (getCoordinates "서울시 마포구" (.ok [⟨"126.9", "37.55"⟩]) (.ok [])).1
        = some ("126.9", "37.55")
      ∧ (searchPlaces true .work "월드컵공원" none 500 5 (.ok []) (.ok [])
          (.ok [])).1 = .error (.notFound "월드컵공원")
      ∧ ¬ Req.keywordSearch "서울시 마포구"
          ∈ (getCoordinates "서울시 마포구" (.ok [⟨"126.9", "37.55"⟩]) (.ok [])).2 := by
  refine ⟨(C9_two_step_lookup "서울시 마포구" [⟨"126.9", "37.55"⟩] [] .work none
      500 5 (.ok [])).2.2.1 ⟨"126.9", "37.55"⟩ [] rfl, ?_, ?_⟩
  · exact (C9_two_step_lookup "월드컵공원" [] [] .work none 500 5
      (.ok [])).2.2.2.2.1.mpr ⟨rfl, rfl⟩
  · intro hmem
    have h := (C9_two_step_lookup "서울시 마포구" [⟨"126.9", "37.55"⟩] [] .work
      none 500 5 (.ok [])).2.1.mp hmem
    simp at h

/-- C10: the coordinate-resolution `catch` swallows every lookup error
(including a 401 or 429 thrown during the address or keyword request) into
`null`, so the search then fails with the location-not-found error — rendered
to the caller as the not-found message, never as an auth or rate-limit one —
while the `unauthorized` and `rateLimited` classifications can only originate
from the subsequent place-search request's status. -/
theorem C10_lookup_error_swallow :
    (∀ (loc : String) (kwRes : ApiOutcome (List KakaoPlace)) (st : Nat),
        (getCoordinates loc (.err st) kwRes).1 = none)
      ∧ (∀ (loc : String) (st : Nat),
          (getCoordinates loc (.ok []) (.err st)).1 = none)
      ∧ (∀ (loc : String) (addrRes : ApiOutcome (List AddressDoc))
          (kwRes : ApiOutcome (List KakaoPlace)) (p : Purpose)
          (kw : Option String) (radius limit : Nat) (placeRes : PlaceOutcome),
          (getCoordinates loc addrRes kwRes).1 = none →
          (searchPlaces true p loc kw radius limit addrRes kwRes placeRes).1
            = .error (.notFound loc))
      ∧ (∀ (env : JsEnv) (raw : RawSearchArgs) (v : SearchSpotInput)
          (addrRes : ApiOutcome (List AddressDoc))
          (kwRes : ApiOutcome (List KakaoPlace)) (placeRes : PlaceOutcome),
          searchSafeParse raw = .ok v →
          (getCoordinates v.location addrRes kwRes).1 = none →
          (searchSpotHandler env true raw addrRes kwRes placeRes).1
            = ⟨["오류: 위치를 찾을 수 없습니다: " ++ v.location], some true⟩)
      ∧ (∀ (loc : String) (addrRes : ApiOutcome (List AddressDoc))
          (kwRes : ApiOutcome (List KakaoPlace)) (hasKey : Bool) (p : Purpose)
          (kw : Option String) (radius limit : Nat) (placeRes : PlaceOutcome),
          (searchPlaces hasKey p loc kw radius limit addrRes kwRes placeRes).1
            = .error .unauthorized → ∃ m, placeRes = .errStatus 401 m)
      ∧ (∀ (loc : String) (addrRes : ApiOutcome (List AddressDoc))
          (kwRes : ApiOutcome (List KakaoPlace)) (hasKey : Bool) (p : Purpose)
          (kw : Option String) (radius limit : Nat) (placeRes : PlaceOutcome),
          (searchPlaces hasKey p loc kw radius limit addrRes kwRes placeRes).1
            = .error .rateLimited → ∃ m, placeRes = .errStatus 429 m) := by
  have hnf : ∀ (loc : String) (addrRes : ApiOutcome (List AddressDoc))
      (kwRes : ApiOutcome (List KakaoPlace)) (p : Purpose)
      (kw : Option String) (radius limit : Nat) (placeRes : PlaceOutcome),
      (getCoordinates loc addrRes kwRes).1 = none →
      (searchPlaces true p loc kw radius limit addrRes kwRes placeRes).1
        = .error (.notFound loc) := by
    intro loc addrRes kwRes p kw radius limit placeRes h
    rcases hg : getCoordinates loc addrRes kwRes with ⟨c, tr⟩
    rw [hg] at h
    simp only at h
    subst h
    simp [searchPlaces, hg]
  refine ⟨?_, ?_, hnf, ?_, ?_, ?_⟩
  · intro loc kwRes st
    rfl
  · intro loc st
    rfl
  · intro env raw v addrRes kwRes placeRes hp hg
    have hsp := hnf v.location addrRes kwRes v.purpose v.keyword v.radius
      v.limit placeRes hg
    rcases hq : searchPlaces true v.purpose v.location v.keyword v.radius
      v.limit addrRes kwRes placeRes with ⟨res, tr⟩
    rw [hq] at hsp
    simp only at hsp
    subst hsp
    have hlit : ("오류: " ++ ("위치를 찾을 수 없습니다: " ++ v.location) : String)
        = "오류: 위치를 찾을 수 없습니다: " ++ v.location := by
      rw [← String.append_assoc]
      exact congrArg (fun z => z ++ v.location) (by decide)
    simp [searchSpotHandler, hp, searchProductivitySpots, hq, renderSearchError,
      hlit]
  · intro loc addrRes kwRes hasKey p kw radius limit placeRes hres
    cases hasKey with
    | false => simp [searchPlaces] at hres
    | true =>
      rcases hg : getCoordinates loc addrRes kwRes with ⟨c, tr⟩
      cases c with
      | none => simp [searchPlaces, hg] at hres
      | some xy =>
        rcases xy with ⟨x, y⟩
        cases placeRes with
        | ok docs => simp [searchPlaces, hg] at hres
        | errStatus s m =>
          rcases eq_or_ne s 401 with h1 | h1
          · exact ⟨m, by rw [h1]⟩
          · rcases eq_or_ne s 429 with h2 | h2
            · subst h2
              simp [searchPlaces, hg] at hres
            · simp [searchPlaces, hg, h1, h2] at hres
  · intro loc addrRes kwRes hasKey p kw radius limit placeRes hres
    cases hasKey with
    | false => simp [searchPlaces] at hres
    | true =>
      rcases hg : getCoordinates loc addrRes kwRes with ⟨c, tr⟩
      cases c with
      | none => simp [searchPlaces, hg] at hres
      | some xy =>
        rcases xy with ⟨x, y⟩
        cases placeRes with
        | ok docs => simp [searchPlaces, hg] at hres
        | errStatus s m =>
          rcases eq_or_ne s 429 with h2 | h2
          · exact ⟨m, by rw [h2]⟩
          · rcases eq_or_ne s 401 with h1 | h1
            · subst h1
              simp [searchPlaces, hg] at hres
            · simp [searchPlaces, hg, h1, h2] at hres

/-- C10 witness: a 401 thrown during the address lookup yields `null`
coordinates and the not-found classification; the dispatcher then renders the
not-found message; and an `unauthorized` result is traceable to a 401 from
the place-search request. -/
theorem C10_lookup_error_swallow_witness :
    (getCoordinates "강남역" (.err 401) (.ok [])).1 = none
      ∧ (searchPlaces true .study "강남역" none 500 5 (.err 401) (.ok [])
          (.ok [])).1 = .error (.notFound "강남역")
      ∧ (searchSpotHandler env0 true rawS3 (.err 429) (.ok []) (.ok [])).1
          = ⟨["오류: 위치를 찾을 수 없습니다: " ++ "강남역"], some true⟩
      ∧ (∃ m, PlaceOutcome.errStatus 401 "Unauthorized"
          = PlaceOutcome.errStatus 401 m) := by
  refine ⟨C10_lookup_error_swallow.1 "강남역" (.ok []) 401,
    C10_lookup_error_swallow.2.2.1 "강남역" (.err 401) (.ok []) .study none
      500 5 (.ok []) rfl,
    C10_lookup_error_swallow.2.2.2.1 env0 rawS3
      ⟨.study, none, "강남역", 500, 5, .markdown⟩ (.err 429) (.ok []) (.ok [])
      rfl rfl,
    C10_lookup_error_swallow.2.2.2.2.1 "강남역" addr0 (.ok []) true .study
      none 500 5 (.errStatus 401 "Unauthorized") rfl⟩

/-- C5: a calendar-tool invocation with valid arguments and no bearer
credential configured returns a failure envelope carrying the auth-required
message, with an empty outbound trace — the credential check runs before any
network request, in the SDK handler and in both serverless dispatchers. -/
theorem C5_auth_guard (env : JsEnv) (raw : RawBlockArgs)
    (input : BlockSessionInput) (calRes : CalOutcome)
    (h : blockSafeParse raw = .ok input) :
    blockSessionHandler env "" raw calRes
        = (⟨["오류: 카카오 로그인이 필요합니다. PlayMCP에서 카카오 계정으로 로그인해주세요."],
            some true⟩, [])
      ∧ (∀ args : P1BlockArgs, executeBlockSessionP1 env "" args calRes
          = ("❌ 카카오 로그인이 필요합니다. PlayMCP에서 카카오 계정으로 로그인해주세요.", []))
      ∧ executeBlockSessionP0 env "" input calRes
          = ("❌ 오류: 카카오 로그인이 필요합니다. PlayMCP에서 카카오 계정으로 로그인해주세요.", [])
      ∧ executeToolP0 env "" (.blockSession raw) calRes
          = ("❌ 오류: 카카오 로그인이 필요합니다. PlayMCP에서 카카오 계정으로 로그인해주세요.", []) := by
  have hemp : ("" : String).isEmpty = true := rfl
  refine ⟨?_, fun args => rfl, rfl, ?_⟩
  · simp [blockSessionHandler, h, hemp]
  · simp [executeToolP0, h, executeBlockSessionP0, hemp]

/-- Minimal valid raw block-session arguments. -/
def rawB3 : RawBlockArgs :=
  { title := some "공부"
  , start_time := some "2026-01-15T19:00:00"
  , duration_minutes := some 120 }

/-- C5 witness: the theorem evaluated at a concrete valid call with no
credential — every dispatcher returns its auth-required failure with an empty
request trace. -/
theorem C5_auth_guard_witness :
    blockSessionHandler env0 "" rawB3 (.ok "evt1")
        = (⟨["오류: 카카오 로그인이 필요합니다. PlayMCP에서 카카오 계정으로 로그인해주세요."],
            some true⟩, [])
      ∧ executeToolP0 env0 "" (.blockSession rawB3) (.ok "evt1")
          = ("❌ 오류: 카카오 로그인이 필요합니다. PlayMCP에서 카카오 계정으로 로그인해주세요.", []) := by
  have h := C5_auth_guard env0 rawB3
    ⟨"공부", none, none, "2026-01-15T19:00:00", 120, 15, .BLUE⟩ (.ok "evt1") rfl
  exact ⟨h.1, h.2.2.2⟩

/-- Extraction of the individual schema constraints from a passing
`blockChecks`. -/
theorem blockChecks_props (raw : RawBlockArgs) (title st : String) (dur : Int)
    (h : blockChecks raw title st dur = true) :
    1 ≤ title.length ∧ title.length ≤ 50
      ∧ (∀ s, raw.location_name = some s → s.length ≤ 100)
      ∧ (∀ s, raw.location_address = some s → s.length ≤ 200)
      ∧ isIsoDateTime st = true
      ∧ 15 ≤ dur ∧ dur ≤ 480
      ∧ (∀ r, raw.reminder_minutes = some r → 0 ≤ r ∧ r ≤ 1440)
      ∧ raw.extraKeys = [] := by
  simp only [blockChecks, Bool.and_eq_true, decide_eq_true_eq] at h
  obtain ⟨⟨⟨⟨⟨⟨⟨⟨h1, h2⟩, h3⟩, h4⟩, h5⟩, h6⟩, h7⟩, h8⟩, h9⟩ := h
  refine ⟨h1, h2, ?_, ?_, h5, h6, h7, ?_, ?_⟩
  · intro s hs
    rw [hs] at h3
    simpa [strMaxLen] using h3
  · intro s hs
    rw [hs] at h4
    simpa [strMaxLen] using h4
  · intro r hr
    rw [hr] at h8
    simpa [intInRange] using h8
  · simpa using h9

/-- A raw block-session argument map that contains an out-of-range declared
field or an undeclared key. -/
def blockViolation (raw : RawBlockArgs) : Prop :=
  raw.extraKeys ≠ []
    ∨ (∃ d, raw.duration_minutes = some d ∧ (d < 15 ∨ 480 < d))
    ∨ (∃ r, raw.reminder_minutes = some r ∧ (r < 0 ∨ 1440 < r))
    ∨ (∃ t, raw.title = some t ∧ (t.length = 0 ∨ 50 < t.length))
    ∨ (∃ s, raw.location_name = some s ∧ 100 < s.length)
    ∨ (∃ s, raw.location_address = some s ∧ 200 < s.length)

/-- C6: a raw argument map with an out-of-range field (such as
`duration_minutes = 500`) or an undeclared key fails validation with an error
message, the serverless dispatcher returns the input-error string with an
empty outbound trace, and the adapter is never invoked (the result is the
same for every adapter outcome and credential). -/
theorem C6_validation_guard (env : JsEnv) (tok : String) (raw : RawBlockArgs)
    (calRes : CalOutcome) (h : blockViolation raw) :
    ∃ m, blockSafeParse raw = .error m
      ∧ executeToolP0 env tok (.blockSession raw) calRes
          = ("❌ 입력 오류: " ++ m, []) := by
  suffices herr : ∃ m, blockSafeParse raw = .error m by
    obtain ⟨m, hm⟩ := herr
    exact ⟨m, hm, by simp [executeToolP0, hm]⟩
  rcases hT : raw.title with _ | title
  case none =>
    exact ⟨"Required", by simp [blockSafeParse, hT]⟩
  rcases hS : raw.start_time with _ | st
  case none =>
    exact ⟨"Required", by simp [blockSafeParse, hT, hS]⟩
  rcases hD : raw.duration_minutes with _ | dur
  case none =>
    exact ⟨"Required", by simp [blockSafeParse, hT, hS, hD]⟩
  rcases hC : (match raw.color with
               | none => some CalendarColor.BLUE
               | some c => parseColor c) with _ | color
  case none =>
    exact ⟨"Invalid enum value for color", by simp [blockSafeParse, hT, hS, hD, hC]⟩
  have hfalse : blockChecks raw title st dur = false := by
    cases hbc : blockChecks raw title st dur with
    | false => rfl
    | true =>
      exfalso
      have hp := blockChecks_props raw title st dur hbc
      rcases h with hx | ⟨d, hd, hdr⟩ | ⟨r, hr, hrr⟩ | ⟨t, ht, htl⟩
        | ⟨s1, hs1, hl1⟩ | ⟨s2, hs2, hl2⟩
      · exact hx hp.2.2.2.2.2.2.2.2
      · rw [hD] at hd
        have : dur = d := by injection hd
        subst this
        have := hp.2.2.2.2.2
        omega
      · have := hp.2.2.2.2.2.2.2.1 r hr
        omega
      · rw [hT] at ht
        have : title = t := by injection ht
        subst this
        have := hp.1
        have := hp.2.1
        omega
      · have := hp.2.2.1 s1 hs1
        omega
      · have := hp.2.2.2.1 s2 hs2
        omega
  exact ⟨"입력값이 스키마 제약을 벗어났습니다",
    by simp [blockSafeParse, hT, hS, hD, hC, hfalse]⟩

/-- Raw block arguments with an out-of-range duration (500 minutes). -/
def rawB4 : RawBlockArgs :=
  { title := some "공부"
  , start_time := some "2026-01-15T19:00:00"
  , duration_minutes := some 500 }

/-- Raw block arguments with an undeclared key. -/
def rawB5 : RawBlockArgs :=
  { title := some "공부"
  , start_time := some "2026-01-15T19:00:00"
  , duration_minutes := some 120
  , extraKeys := ["unexpected_field"] }

/-- C6 witness: the theorem at `duration_minutes = 500` and at an unknown
extra key — validation fails and the dispatcher answers with the input-error
string and an empty trace, whatever the adapter would have answered. -/
theorem C6_validation_guard_witness :
    (∃ m, blockSafeParse rawB4 = .error m
        ∧ executeToolP0 env0 "token" (.blockSession rawB4) (.ok "evt1")
            = ("❌ 입력 오류: " ++ m, []))
      ∧ (∃ m, blockSafeParse rawB5 = .error m
        ∧ executeToolP0 env0 "token" (.blockSession rawB5) (.ok "evt1")
            = ("❌ 입력 오류: " ++ m, [])) :=
  ⟨C6_validation_guard env0 "token" rawB4 (.ok "evt1")
      (Or.inr (Or.inl ⟨500, rfl, by omega⟩)),
    C6_validation_guard env0 "token" rawB5 (.ok "evt1")
      (Or.inl (by simp [rawB5]))⟩

/-- Extraction of the individual schema constraints from a passing
`searchChecks`. -/
theorem searchChecks_props (raw : RawSearchArgs) (loc : String)
    (h : searchChecks raw loc = true) :
    1 ≤ loc.length ∧ loc.length ≤ 100
      ∧ (∀ k, raw.keyword = some k → k.length ≤ 100)
      ∧ (∀ r, raw.radius = some r → 100 ≤ r ∧ r ≤ 20000)
      ∧ (∀ n, raw.limit = some n → 1 ≤ n ∧ n ≤ 15)
      ∧ raw.extraKeys = [] := by
  simp only [searchChecks, Bool.and_eq_true, decide_eq_true_eq] at h
  obtain ⟨⟨⟨⟨⟨h1, h2⟩, h3⟩, h4⟩, h5⟩, h6⟩ := h
  refine ⟨h1, h2, ?_, ?_, ?_, ?_⟩
  · intro k hk
    rw [hk] at h3
    simpa [strMaxLen] using h3
  · intro r hr
    rw [hr] at h4
    simpa [intInRange] using h4
  · intro n hn
    rw [hn] at h5
    simpa [intInRange] using h5
  · simpa using h6

/-- C7: a successful search validation passes every supplied field through
unchanged — the enum fields map to their parsed values, `location` and
`keyword` are kept verbatim, supplied `radius` and `limit` keep their values —
and fills the declared defaults for absent fields: radius 500, limit 5,
markdown format. -/
theorem C7_defaults (raw : RawSearchArgs) (v : SearchSpotInput)
    (h : searchSafeParse raw = .ok v) :
    (∀ s, raw.purpose = some s → parsePurpose s = some v.purpose)
      ∧ (∀ l, raw.location = some l → v.location = l)
      ∧ v.keyword = raw.keyword
      ∧ (∀ r, raw.radius = some r → (v.radius : Int) = r)
      ∧ (raw.radius = none → v.radius = 500)
      ∧ (∀ n, raw.limit = some n → (v.limit : Int) = n)
      ∧ (raw.limit = none → v.limit = 5)
      ∧ (∀ f, raw.response_format = some f →
          parseResponseFormat f = some v.response_format)
      ∧ (raw.response_format = none → v.response_format = .markdown) := by
  rcases hP : raw.purpose with _ | ps
  · simp [searchSafeParse, hP] at h
  rcases hL : raw.location with _ | loc
  · simp [searchSafeParse, hP, hL] at h
  rcases hPp : parsePurpose ps with _ | purpose
  · simp [searchSafeParse, hP, hL, hPp] at h
  rcases hF : (match raw.response_format with
               | none => some ResponseFormat.markdown
               | some f => parseResponseFormat f) with _ | fmt
  · simp [searchSafeParse, hP, hL, hPp, hF] at h
  cases hc : searchChecks raw loc with
  | false => simp [searchSafeParse, hP, hL, hPp, hF, hc] at h
  | true =>
    have hprops := searchChecks_props raw loc hc
    simp only [searchSafeParse, hP, hL, hPp, hF, hc, if_true] at h
    have hv := h
    injection hv with hv2
    subst hv2
    refine ⟨?_, ?_, rfl, ?_, ?_, ?_, ?_, ?_, ?_⟩
    · intro s hs
      have h3 : ps = s := by injection hs
      subst h3
      exact hPp
    · intro l hl
      have h3 : loc = l := by injection hl
      exact h3
    · intro r hr
      have hb := hprops.2.2.2.1 r hr
      simp only [hr, Option.getD_some]
      omega
    · intro hr
      simp [hr]
    · intro n hn
      have hb := hprops.2.2.2.2.1 n hn
      simp only [hn, Option.getD_some]
      omega
    · intro hn
      simp [hn]
    · intro f hf
      rw [hf] at hF
      exact hF
    · intro hf
      rw [hf] at hF
      injection hF with h3
      exact h3.symm

/-- Raw search arguments with a supplied radius and an absent limit. -/
def rawS4 : RawSearchArgs :=
  { purpose := some "reading"
  , location := some "성수동"
  , keyword := some "조용한"
  , radius := some 1200 }

/-- C7 witness: the theorem evaluated at a concrete parse — the supplied
radius 1200, keyword and location pass through unchanged, and the absent
limit and format receive 5 and markdown. -/
theorem C7_defaults_witness :
    ((⟨.reading, some "조용한", "성수동", 1200, 5, .markdown⟩ : SearchSpotInput).radius : Int)
        = 1200
      ∧ (⟨.reading, some "조용한", "성수동", 1200, 5, .markdown⟩ : SearchSpotInput).limit = 5
      ∧ (⟨.reading, some "조용한", "성수동", 1200, 5, .markdown⟩ : SearchSpotInput).keyword
          = rawS4.keyword := by
  have h := C7_defaults rawS4 ⟨.reading, some "조용한", "성수동", 1200, 5, .markdown⟩ rfl
  exact ⟨h.2.2.2.1 1200 rfl, h.2.2.2.2.2.2.1 rfl, h.2.2.1⟩

/-- C1 counterexample: the claim says every dispatcher path returns an
envelope with both `content` and a boolean `isError`; but the serverless
dispatcher's `tools/call` result never writes `isError` (here: a failing
no-credential calendar call), and the SDK search tool's success path returns
`{ content }` with no `isError` field either. -/
theorem C1_counterexample :
    (toolsCallResultP0 env0 "" (.blockSession rawB3) (.ok "evt1")).1.isError = none
      ∧ (searchSpotHandler env0 true rawS3 addr0 (.ok []) (.ok [])).1.isError = none
      ∧ (searchSpotHandler env0 true rawS3 addr0 (.ok []) (.ok [])).1.isError
          ≠ some true
      ∧ (searchSpotHandler env0 true rawS3 addr0 (.ok []) (.ok [])).1.isError
          ≠ some false := by
  have h2 : (searchSpotHandler env0 true rawS3 addr0 (.ok []) (.ok [])).1.isError
      = none := rfl
  exact ⟨rfl, h2, by rw [h2]; simp, by rw [h2]; simp⟩

/-- C1 (amended): every dispatcher path returns an envelope whose content is
one rendered text item; the SDK-registered handlers return `isError := true`
on failure paths and leave the field absent (not `false`) on the success
path — absent exactly when validation and the adapter call both succeed —
and the serverless dispatcher leaves `isError` absent on every path. -/
theorem C1_amended_envelope :
    (∀ (env : JsEnv) (hasKey : Bool) (raw : RawSearchArgs)
      (a : ApiOutcome (List AddressDoc)) (k : ApiOutcome (List KakaoPlace))
      (p : PlaceOutcome),
      (∃ s, (searchSpotHandler env hasKey raw a k p).1.content = [s])
        ∧ ((searchSpotHandler env hasKey raw a k p).1.isError = none
            ∨ (searchSpotHandler env hasKey raw a k p).1.isError = some true)
        ∧ ((searchSpotHandler env hasKey raw a k p).1.isError = none
            ↔ ∃ v ps, searchSafeParse raw = .ok v
                ∧ (searchProductivitySpots hasKey v.purpose v.location
                    v.keyword v.radius v.limit a k p).1 = .ok ps))
      ∧ (∀ (env : JsEnv) (tok : String) (raw : RawBlockArgs)
          (calRes : CalOutcome),
          (∃ s, (blockSessionHandler env tok raw calRes).1.content = [s])
            ∧ ((blockSessionHandler env tok raw calRes).1.isError = none
                ∨ (blockSessionHandler env tok raw calRes).1.isError = some true))
      ∧ (∀ (env : JsEnv) (tok : String) (call : ToolCallP0)
          (calRes : CalOutcome),
          (toolsCallResultP0 env tok call calRes).1.isError = none
            ∧ ∃ s, (toolsCallResultP0 env tok call calRes).1.content = [s]) := by
  refine ⟨?_, ?_, ?_⟩
  · intro env hasKey raw a k p
    rcases hp : searchSafeParse raw with m | v
    · refine ⟨?_, .inr ?_, ?_⟩
      · simp only [searchSpotHandler, hp]
        exact ⟨_, rfl⟩
      · simp [searchSpotHandler, hp]
      · simp [searchSpotHandler, hp]
    · rcases hq : searchProductivitySpots hasKey v.purpose v.location v.keyword
        v.radius v.limit a k p with ⟨res, tr⟩
      cases res with
      | error e =>
        refine ⟨?_, .inr ?_, ?_⟩
        · simp only [searchSpotHandler, hp, hq]
          exact ⟨_, rfl⟩
        · simp [searchSpotHandler, hp, hq]
        · simp [searchSpotHandler, hp, hq]
      | ok x =>
        refine ⟨?_, .inl ?_, ?_⟩
        · simp only [searchSpotHandler, hp, hq]
          exact ⟨_, rfl⟩
        · simp [searchSpotHandler, hp, hq]
        · simp [searchSpotHandler, hp, hq]
          exact ⟨x.1, x.2.1, x.2.2, rfl⟩
  · intro env tok raw calRes
    rcases hp : blockSafeParse raw with m | input
    · refine ⟨?_, .inr (by simp [blockSessionHandler, hp])⟩
      simp only [blockSessionHandler, hp]
      exact ⟨_, rfl⟩
    · cases htok : tok.isEmpty with
      | true =>
        refine ⟨?_, .inr (by simp [blockSessionHandler, hp, htok])⟩
        simp only [blockSessionHandler, hp, htok]
        exact ⟨_, rfl⟩
      | false =>
        rcases hc : createCalendarEvent env tok input.title input.start_time
            input.duration_minutes
            { locationName := input.location_name
            , locationAddress := input.location_address
            , reminderMinutes := some input.reminder_minutes
            , color := some input.color
            , description := some ("갓생 메이트로 등록한 일정입니다.\n\n목표: "
                ++ input.title) } calRes with ⟨res, tr⟩
        cases res with
        | error m =>
          refine ⟨?_, .inr (by simp [blockSessionHandler, hp, htok, hc])⟩
          simp only [blockSessionHandler, hp, htok, hc]
          exact ⟨_, rfl⟩
        | ok eid =>
          refine ⟨?_, .inl (by simp [blockSessionHandler, hp, htok, hc])⟩
          simp only [blockSessionHandler, hp, htok, hc]
          exact ⟨_, rfl⟩
  · intro env tok call calRes
    exact ⟨rfl, ⟨_, rfl⟩⟩

/-- C1 witness: the amended theorem applied at a concrete successful search —
the envelope's `isError` field is absent on the success path. -/
theorem C1_amended_envelope_witness :
    (searchSpotHandler env0 true rawS3 addr0 (.ok []) (.ok [])).1.isError = none :=
  (C1_amended_envelope.1 env0 true rawS3 addr0 (.ok []) (.ok [])).2.2.mpr
    ⟨⟨.study, none, "강남역", 500, 5, .markdown⟩, ([], "강남역 스터디카페", 0),
      rfl, rfl⟩
